import Mathlib

/-!
Shallow embedding of the frame-preparation core of the Turso3D renderer
(Renderer.h / Renderer.cpp) and proofs about the claims of its
natural-language specification.

Modelling conventions:
* C++ machine integers are modelled as `Int`/`Nat`; `frameNumber` is an
  `unsigned short`, so its increment is taken modulo 2^16.
* External collaborators whose sources are outside the renderer translation
  unit (the 2D atlas `AreaAllocator`, the math predicates
  `Frustum.IsInsideFast` / `Sphere.IsInsideFast`, the float comparison
  `Matrix4.Equals(m, eps)`, `Drawable::OnPrepareRender`) are modelled as
  oracle inputs: boolean/optional-valued functions supplied as arguments.
  The renderer code consumes only their boolean/positional results, so any
  behaviour of the real collaborators is an instantiation of the oracle.
* Shadow matrices are abstracted to an arbitrary value type `M` together
  with the boolean comparison the code applies to them.
-/

namespace Turso3D

/-- Grid and capacity constants from Renderer.h. -/
def NUM_CLUSTER_X : Nat := 16

def NUM_CLUSTER_Y : Nat := 8

def NUM_CLUSTER_Z : Nat := 8

def MAX_LIGHTS : Nat := 255

def MAX_LIGHTS_CLUSTER : Nat := 16

/-- `IntVector2` from the math library: a pair of integers. -/
structure IntVector2 where
  x : Int
  y : Int
deriving DecidableEq, Repr

/-- `IntRect` from the math library: left/top/right/bottom integer rectangle. -/
structure IntRect where
  left : Int
  top : Int
  right : Int
  bottom : Int
deriving DecidableEq, Repr

namespace IntRect

/-- `IntRect::Width()`. -/
def width (r : IntRect) : Int := r.right - r.left

/-- `IntRect::Height()`. -/
def height (r : IntRect) : Int := r.bottom - r.top

/-- `IntRect::ZERO`. -/
def ZERO : IntRect := ⟨0, 0, 0, 0⟩

end IntRect

/-- `LightType` of a `LightDrawable`. -/
inductive LightType where
  | directional
  | point
  | spot
deriving DecidableEq, Repr

/-- Shadow view render modes (`RENDER_*` enumeration). -/
inductive RenderMode where
  | dynamicLight
  | staticLightStoreStatic
  | staticLightRestoreStatic
  | staticLightCached
deriving DecidableEq, Repr

/-! ## Frame number stamping (Renderer::PrepareView, lines 187-191)

```cpp
// Framenumber is never 0
++frameNumber;
if (!frameNumber)
    ++frameNumber;
```
`frameNumber` is an `unsigned short`, so `++` wraps modulo 2^16. -/

/-- One `PrepareView` frame-number step on a 16-bit counter. -/
def nextFrameNumber (n : Nat) : Nat :=
  let incremented := (n + 1) % 65536
  if incremented = 0 then (incremented + 1) % 65536 else incremented

/-! ## Shadow map allocation (Renderer::AllocateShadowMap, lines 484-521)

The `AreaAllocator` lives outside this translation unit; it is modelled as
an oracle with the two entry points the code calls:
`AllocateSpecific(rect) -> bool` and `Allocate(w, h, x, y) -> bool` (the
out-parameters become an optional position). The embedding additionally
records the trace of allocator calls, in order, so that claims about
"first attempts" and retry counts are about observable behaviour. -/

/-- One observable call into the atlas allocator. -/
inductive AllocCall where
  /-- `allocator.AllocateSpecific(oldRect)` -/
  | specific (r : IntRect)
  /-- `allocator.Allocate(request.x, request.y, x, y)` -/
  | fresh (w h : Int)
deriving DecidableEq, Repr

/-- Oracle for the `AreaAllocator` collaborator. -/
structure AllocOracle where
  allocSpecific : IntRect → Bool
  allocate : Int → Int → Option (Int × Int)

/-- The `while (retries--)` fresh-allocation loop of `AllocateShadowMap`:
each iteration tries `Allocate(w, h)`; on failure the request is halved
(integer division) and the loop continues. Returns the allocated rectangle
(if any) and the trace of fresh-allocation calls made. -/
def allocFreshLoop (o : AllocOracle) : Nat → Int → Int → Option IntRect × List AllocCall
  | 0, _, _ => (none, [])
  | retries + 1, w, h =>
    match o.allocate w h with
    | some (x, y) => (some ⟨x, y, x + w, y + h⟩, [AllocCall.fresh w h])
    | none =>
      let rest := allocFreshLoop o retries (w / 2) (h / 2)
      (rest.1, AllocCall.fresh w h :: rest.2)

/-- `Renderer::AllocateShadowMap` (lines 484-521) as a function of the
light's requested size and its previous shadow rectangle.
Result: `some rect` means `SetShadowMap(texture, rect); return true`;
`none` means `SetShadowMap(nullptr); return false`. The second component
is the ordered trace of allocator calls. -/
def allocateShadowMap (o : AllocOracle) (request : IntVector2) (oldRect : IntRect) :
    Option IntRect × List AllocCall :=
  if request.x = oldRect.width ∧ request.y = oldRect.height then
    if o.allocSpecific oldRect then
      (some oldRect, [AllocCall.specific oldRect])
    else
      let rest := allocFreshLoop o 3 request.x request.y
      (rest.1, AllocCall.specific oldRect :: rest.2)
  else
    allocFreshLoop o 3 request.x request.y

/-- Modelled from the spec: the claim's reading of the failure path of
`AllocateShadowMap` ("tries a fresh allocation and on failure retries up
to 3 times while halving the requested width and height each time"), i.e.
one initial fresh attempt followed by up to three halved retries —
four fresh attempts in total. Used only to compare against the source
embedding `allocateShadowMap`. -/
def claimAllocFresh (o : AllocOracle) (request : IntVector2) : Option IntRect × List AllocCall :=
  allocFreshLoop o 4 request.x request.y

/-! ## Shadow map texture accessor (Renderer::ShadowMapTexture, lines 418-421)

```cpp
return index < shadowMaps.size() ? shadowMaps[index].texture : nullptr;
```
Textures are opaque; each configured shadow map is represented by its
texture identifier. -/

/-- `Renderer::ShadowMapTexture(index)` over the list of configured shadow
maps (each represented by its texture). `none` models `nullptr`. -/
def shadowMapTexture (shadowMaps : List Nat) (index : Nat) : Option Nat :=
  if h : index < shadowMaps.length then some (shadowMaps.get ⟨index, h⟩) else none

/-! ## Shadow view render-mode resolution
(Renderer::CollectShadowBatchesWork, lines 1190-1403)

The per-view body first handles the skip case (`view.viewport == IntRect::ZERO`),
then iterates the view's candidate shadowcasters accumulating
`totalShadowCasters`, `staticShadowCasters`, `staticCastersMoved`,
`dynamicCastersMoved`, and finally resolves `view.renderMode` and updates the
cached `last*` fields. The geometric filter chain applied to each caster
(cube-face containment, extrusion test, `OnPrepareRender`) only determines
whether the caster is counted, so it is modelled by a per-caster oracle bit. -/

/-- A candidate shadowcaster as seen by the caster loop of
`CollectShadowBatchesWork`. -/
structure CasterInfo where
  /-- The caster survives the filter chain (point-face containment,
  extrusion test, `OnPrepareRender`) and is counted and batched. -/
  accepted : Bool
  /-- `drawable->IsStatic()` -/
  isStatic : Bool
  /-- `drawable->LastUpdateFrameNumber() == frameNumber` -/
  movedThisFrame : Bool
deriving DecidableEq, Repr

/-- Aggregates computed by the caster loop. -/
structure CasterAgg where
  total : Nat
  staticCount : Nat
  staticMoved : Bool
  dynMoved : Bool
deriving DecidableEq, Repr

/-- The caster loop of `CollectShadowBatchesWork` (lines 1250-1344),
restricted to the bookkeeping that feeds the render-mode decision. -/
def casterAgg (casters : List CasterInfo) : CasterAgg :=
  casters.foldl
    (fun agg c =>
      if c.accepted then
        if c.isStatic then
          { agg with
            total := agg.total + 1
            staticCount := agg.staticCount + 1
            staticMoved := agg.staticMoved || c.movedThisFrame }
        else
          { agg with
            total := agg.total + 1
            dynMoved := agg.dynMoved || c.movedThisFrame }
      else agg)
    ⟨0, 0, false, false⟩

/-- Mutable state of a `ShadowView` relevant to render-mode resolution.
Shadow matrices are abstracted to type `M`; the float-tolerance comparison
`Matrix4::Equals(m, 0.0001f)` becomes the supplied `matEq`. -/
structure ShadowViewState (M : Type) where
  viewport : IntRect
  lastViewport : IntRect
  shadowMatrix : M
  lastShadowMatrix : M
  lastNumGeometries : Nat
  renderMode : RenderMode

/-- The per-view body of `CollectShadowBatchesWork` (lines 1226-1390):
skip handling, caster aggregation, render-mode resolution and the
`last*` / `shadowMatrix` cache updates. -/
def processShadowView {M : Type} (matEq : M → M → Bool) (lightType : LightType)
    (lightIsStatic : Bool) (casters : List CasterInfo) (v : ShadowViewState M) :
    ShadowViewState M :=
  if v.viewport = IntRect.ZERO then
    { v with renderMode := RenderMode.staticLightCached, lastViewport := IntRect.ZERO }
  else
    let dynamicOrDirLight := lightType = LightType.directional ∨ ¬ lightIsStatic
    let agg := casterAgg casters
    let mode :=
      if dynamicOrDirLight then
        -- lines 1348-1355
        if v.lastViewport ≠ v.viewport ∨ ¬ matEq v.lastShadowMatrix v.shadowMatrix ∨
            v.lastNumGeometries ≠ agg.total ∨ agg.dynMoved ∨ agg.staticMoved then
          RenderMode.dynamicLight
        else
          RenderMode.staticLightCached
      else
        -- lines 1357-1376: assign CACHED first, then conditionally overwrite
        if v.lastViewport ≠ v.viewport ∨ ¬ matEq v.lastShadowMatrix v.shadowMatrix then
          RenderMode.staticLightStoreStatic
        else if agg.staticMoved then
          RenderMode.staticLightStoreStatic
        else if agg.dynMoved ∨ v.lastNumGeometries ≠ agg.total then
          (if agg.staticCount > 0 then RenderMode.staticLightRestoreStatic
           else RenderMode.dynamicLight)
        else
          RenderMode.staticLightCached
    -- lines 1378-1390
    if mode = RenderMode.staticLightCached then
      { v with renderMode := mode, shadowMatrix := v.lastShadowMatrix }
    else
      { v with
        renderMode := mode
        lastViewport := v.viewport
        lastNumGeometries := agg.total
        lastShadowMatrix := v.shadowMatrix }

/-- Modelled from the spec: the claim's linear transition rule for a static
(non-directional) light's view, stated as written ("if its allocated
rectangle or its computed shadow matrix changed → STORE_STATIC; else if any
static caster moved → STORE_STATIC; else if a dynamic caster moved or the
caster count changed → RESTORE_STATIC when static casters exist else
DYNAMIC_LIGHT; else CACHED"). Used only to compare with
`processShadowView`. -/
def claimStaticRenderMode (viewportChanged matrixChanged staticMoved dynMoved
    countChanged : Bool) (staticCasters : Nat) : RenderMode :=
  if viewportChanged || matrixChanged then RenderMode.staticLightStoreStatic
  else if staticMoved then RenderMode.staticLightStoreStatic
  else if dynMoved || countChanged then
    (if staticCasters > 0 then RenderMode.staticLightRestoreStatic
     else RenderMode.dynamicLight)
  else RenderMode.staticLightCached

/-! ## Light processing (Renderer::ProcessLightsWork, lines 831-978)

A `LightDrawable`, restricted to the observables `ProcessLightsWork`
consumes. `shadowStrengthLt1` is the oracle result of the float test
`light->ShadowStrength() < 1.0f`; `requestSize` is
`light->TotalShadowMapSize()`; `shadowRect` / `hasShadowMap` are the
light's shadow-map assignment carried over from the previous frame. -/
structure LightD where
  lightType : LightType
  /-- `light->Distance()`, the view-space distance used by `CompareLights`. -/
  distance : Int
  /-- `light->GetColor().Average()` as an integer observation. -/
  colorAvg : Int
  /-- `light->ShadowStrength() < 1.0f` -/
  shadowStrengthLt1 : Bool
  /-- `light->TotalShadowMapSize()` -/
  requestSize : IntVector2
  /-- `light->ShadowRect()` as carried over from the previous frame. -/
  shadowRect : IntRect
  /-- `light->ShadowMap() != nullptr` as carried over from the previous frame. -/
  hasShadowMap : Bool
deriving DecidableEq, Repr

/-- The directional-light extraction loop (lines 839-851): scan the merged
list; every directional light is erased, and it replaces the current
candidate when the candidate is empty or the light's average color is
strictly greater. -/
def extractDirLight (acc : Option LightD) : List LightD → Option LightD × List LightD
  | [] => (acc, [])
  | l :: rest =>
    if l.lightType = LightType.directional then
      extractDirLight
        (match acc with
         | none => some l
         | some d => if l.colorAvg > d.colorAvg then some l else some d)
        rest
    else
      let r := extractDirLight acc rest
      (r.1, l :: r.2)

/-- The strict-weak order `CompareLights` (lines 34-37) sorts by
`Distance()`; its induced sortedness predicate is non-decreasing
distance. -/
def lightLE (a b : LightD) : Prop := a.distance ≤ b.distance

instance : DecidableRel lightLE := fun a b =>
  inferInstanceAs (Decidable (a.distance ≤ b.distance))

instance : IsTotal LightD lightLE := ⟨fun a b => Int.le_total a.distance b.distance⟩

instance : IsTrans LightD lightLE := ⟨fun _ _ _ => Int.le_trans⟩

/-- `std::sort(lights.begin(), lights.end(), CompareLights)` (line 854).
`std::sort` guarantees a permutation ordered by `CompareLights`; ties are
in unspecified order. Insertion sort is one such compliant ordering, and
every property proved below is invariant under the tie order. -/
def sortLights (ls : List LightD) : List LightD := List.insertionSort lightLE ls

/-- Lines 853-858: sort the remaining point/spot lights by ascending
distance, then truncate to `MAX_LIGHTS` (`resize` with a smaller size drops
the tail). -/
def retainedLights (collected : List LightD) : List LightD :=
  (sortLights (extractDirLight none collected).2).take MAX_LIGHTS

/-- The pure core of `ProcessLightsWork` lines 836-858: directional-light
extraction (starting from the `dirLight = nullptr` reset in `PrepareView`)
followed by sorting and truncation of the localized lights. -/
def processLightsCore (collected : List LightD) : Option LightD × List LightD :=
  ((extractDirLight none collected).1, retainedLights collected)

/-! ## Shadow-map setup inside ProcessLightsWork (lines 860-978)

`LightDrawable::SetShadowMap` / `InitShadowViews` live outside this
translation unit; their effect on the observables used here is modelled
from the spec. -/

/-- `light->SetShadowMap(nullptr)`. Modelled from the spec: a cleared light
"renders unshadowed this frame" and is "not retried until next frame's
allocation pass"; the pre-allocation guard `ShadowRect() != IntRect::ZERO`
(line 867) shows clearing also resets the stored rectangle. -/
def setShadowMapNone (l : LightD) : LightD :=
  { l with hasShadowMap := false, shadowRect := IntRect.ZERO }

/-- `light->SetShadowMap(texture, rect)`. -/
def setShadowMapRect (l : LightD) (r : IntRect) : LightD :=
  { l with hasShadowMap := true, shadowRect := r }

/-- `Renderer::AllocateShadowMap(light)` applied to a light: runs the
allocator interaction of `allocateShadowMap` and stores its outcome in the
light, returning the success flag and the allocator call trace. -/
def allocForLight (o : AllocOracle) (l : LightD) : LightD × Bool × List AllocCall :=
  match allocateShadowMap o l.requestSize l.shadowRect with
  | (some r, calls) => (setShadowMapRect l r, true, calls)
  | (none, calls) => (setShadowMapNone l, false, calls)

/-- Modelled from the spec: `LightDrawable::InitShadowViews` creates the
light's shadow views — "1 for spot, 6 for point cube faces, N for
directional cascades" (§3); the directional cascade count is 2, as consumed
by `RenderBatches` lines 611-616. -/
def numShadowViews : LightType → Nat
  | LightType.spot => 1
  | LightType.point => 6
  | LightType.directional => 2

/-- The shadow-map-caching pre-step, lines 862-869: per retained light,
if the shadow maps were dirtied clear its map, else if shadows are on, the
light wants shadows and it kept a rectangle from last frame, re-allocate. -/
def preStepLight (ds dirty : Bool) (o : AllocOracle) (l : LightD) : LightD × List AllocCall :=
  if dirty then (setShadowMapNone l, [])
  else if ds ∧ l.shadowStrengthLt1 ∧ l.shadowRect ≠ IntRect.ZERO then
    let r := allocForLight o l
    (r.1, r.2.2)
  else (l, [])

/-- The pre-step fold over the retained light list. -/
def preStep (ds dirty : Bool) (o : AllocOracle) (ls : List LightD) :
    List LightD × List AllocCall :=
  ls.foldr
    (fun l r =>
      let s := preStepLight ds dirty o l
      (s.1 :: r.1, s.2 ++ r.2))
    ([], [])

/-- Directional-light shadow handling, lines 871-879 (with C++ short-circuit
evaluation of `!drawShadows || strength >= 1 || !AllocateShadowMap`), plus
the cascade shadow-view registration of lines 950-973 which happens only
when the directional light ends up holding a shadow map. Returns the
updated light, the allocator calls and the number of shadow views pushed
to `shadowMaps[0].shadowViews`. -/
def dirLightSetup (ds dirty : Bool) (o : AllocOracle) :
    Option LightD → Option LightD × List AllocCall × Nat
  | none => (none, [], 0)
  | some d =>
    let d1 := if dirty then setShadowMapNone d else d
    if ¬ds ∨ ¬d1.shadowStrengthLt1 then (some (setShadowMapNone d1), [], 0)
    else
      let r := allocForLight o d1
      if r.2.1 then (some r.1, r.2.2, numShadowViews LightType.directional)
      else (some (setShadowMapNone r.1), r.2.2, 0)

/-- Outcome of the shadow section of `ProcessLightsWork`: the ordered
allocator call trace, the lights for which a shadowcaster-collection task
is queued, and the number of shadow views registered on the shadow maps. -/
structure ShadowSetup where
  allocCalls : List AllocCall
  taskLights : List LightD
  viewCount : Nat

/-- One iteration of the main shadowcaster-task loop, lines 886-948:
skip non-shadowcasting lights (clearing their map), retry allocation when
the light holds no map (skipping it on failure), otherwise register the
light's shadow views and queue its shadowcaster task. -/
def mainLoopLight (ds : Bool) (o : AllocOracle) (l : LightD) :
    List AllocCall × Option LightD :=
  if ¬ds ∨ ¬l.shadowStrengthLt1 then ([], none)
  else if ¬l.hasShadowMap then
    let r := allocForLight o l
    if r.2.1 then (r.2.2, some r.1) else (r.2.2, none)
  else ([], some l)

/-- The main shadowcaster-task loop folded over the retained lights. -/
def mainLoop (ds : Bool) (o : AllocOracle) (ls : List LightD) : ShadowSetup :=
  ls.foldr
    (fun l acc =>
      let s := mainLoopLight ds o l
      match s.2 with
      | some l2 =>
        { allocCalls := s.1 ++ acc.allocCalls
          taskLights := l2 :: acc.taskLights
          viewCount := numShadowViews l2.lightType + acc.viewCount }
      | none => { acc with allocCalls := s.1 ++ acc.allocCalls })
    ⟨[], [], 0⟩

/-- The complete shadow section of `ProcessLightsWork` (lines 860-978):
pre-step reallocation, directional-light handling, then the shadowcaster
task loop, in source order. -/
def shadowSetup (ds dirty : Bool) (o : AllocOracle) (dl : Option LightD)
    (ls : List LightD) : ShadowSetup :=
  let pre := preStep ds dirty o ls
  let dlr := dirLightSetup ds dirty o dl
  let main := mainLoop ds o pre.1
  { allocCalls := pre.2 ++ dlr.2.1 ++ main.allocCalls
    taskLights := main.taskLights
    viewCount := main.viewCount + dlr.2.2 }

/-- `drawShadows = shadowMaps.size() ? drawShadows_ : false;`
(`Renderer::PrepareView`, line 192). -/
def effectiveDrawShadows (shadowMapsCount : Nat) (requested : Bool) : Bool :=
  if shadowMapsCount ≠ 0 then requested else false

/-! ## Light culling to the cluster grid
(Renderer::CullLightsToFrustumWork, lines 1405-1462)

One task culls all retained lights against the 16x8 cells of one Z-slice.
For each light the code computes view-space Z bounds and intersection
predicates from float geometry; those results enter the model as oracle
bits (`zTest` is the negation of the Z-range early-out, `hit cell` the
combined `IsInsideFast` test for a cell). Cell indices are relative to the
slice (absolute `idx = z * 128 + cell`); a data write
`clusterData[(idx << 4) + numClusterLights[idx]++] = i + 1` is recorded as
the pair (relative byte offset, value written). Point and spot lights share
this identical cap/write structure (lines 1424-1437 and 1446-1459). -/

/-- Per-light oracle results for one Z-slice. -/
structure LightCull where
  /-- negation of `minViewZ > slice far || maxViewZ < slice near`. -/
  zTest : Bool
  /-- the combined bounds/frustum intersection test for a relative cell. -/
  hit : Nat → Bool

/-- Per-slice cluster state: the `numClusterLights` entries of the slice's
128 cells, and the trace of `clusterData` writes (relative offset, value). -/
structure CullState where
  counts : List Nat
  writes : List (Nat × Nat)

/-- Read `numClusterLights` at a relative cell. -/
def cellCount (st : CullState) (cell : Nat) : Nat := st.counts.getD cell 0

/-- The inner-loop body (lines 1430-1436): on an intersection hit, write the
light's 1-based index at `clusterData[(idx << 4) + numClusterLights[idx]++]`.
Note: there is no capacity check here. -/
def cullCellStep (val : Nat) (hit : Nat → Bool) (st : CullState) (cell : Nat) : CullState :=
  if hit cell then
    { counts := st.counts.set cell (cellCount st cell + 1)
      writes := st.writes ++ [(cell * MAX_LIGHTS_CLUSTER + cellCount st cell, val)] }
  else st

/-- One light's processing in the slice (lines 1418-1437): skip the whole
slice when the Z ranges do not overlap or when `numClusterLights` of the
slice's first cell (`idx = z * NUM_CLUSTER_X * NUM_CLUSTER_Y`) has reached
`MAX_LIGHTS_CLUSTER`; otherwise run the 8x16 cell loop. -/
def cullLightStep (st : CullState) (i : Nat) (l : LightCull) : CullState :=
  if ¬l.zTest ∨ MAX_LIGHTS_CLUSTER ≤ cellCount st 0 then st
  else (List.range (NUM_CLUSTER_X * NUM_CLUSTER_Y)).foldl (cullCellStep (i + 1) l.hit) st

/-- `CullLightsToFrustumWork` for one Z-slice: fold over the retained
lights in index order, starting from the zero state established by the
`memset` calls in `ProcessShadowCastersWork` (lines 1166-1167). -/
def cullLightsSlice (lights : List LightCull) : CullState :=
  lights.enum.foldl (fun st p => cullLightStep st p.1 p.2)
    ⟨List.replicate (NUM_CLUSTER_X * NUM_CLUSTER_Y) 0, []⟩

/-- A concrete scene slice: 17 retained lights, each passing the slice
Z test and intersecting exactly the relative cell 1 (and in particular not
cell 0, whose count is the only one the capacity guard reads). -/
def overflowLights : List LightCull :=
  List.replicate 17 ⟨true, fun cell => cell == 1⟩

/-! ## Octree traversal and batch collection
(Renderer::PrepareView lines 174-263, CollectOctantsAndLights lines
423-482, CollectOctantsWork lines 802-829, CollectBatchesWork lines
980-1077, RenderBatches lines 629-707)

Octants are trees of drawables; the frustum tests are oracles: `octMask`
models `frustum.IsInsideMasked(octant->cullingBox, planeMask)` (result
`0xff` = fully outside), and each drawable carries the per-mask result of
`frustum.IsInsideMaskedFast(WorldBoundingBox(), planeMask)` together with
its `OnPrepareRender` outcome. -/

/-- A sub-geometry of a `GeometryDrawable` as consumed by batch
collection: pass lookup results and the `ShaderProgram::Bind()` outcome of
its shader program. -/
structure GeoBatchD where
  hasOpaquePass : Bool
  hasAlphaPass : Bool
  bindOk : Bool
deriving DecidableEq, Repr

/-- A drawable stored in an octant. `isLight` distinguishes `DF_LIGHT`
from `DF_GEOMETRY`; the `light` payload is meaningful only for lights and
`geoBatches` only for geometries. -/
structure DrawableD where
  isLight : Bool
  layerMask : Nat
  prepareOk : Bool
  boxVisible : Nat → Bool
  light : LightD
  geoBatches : List GeoBatchD
  distance : Int

/-- An octant of the octree: its drawables and its non-null children. -/
inductive OctantT where
  | node (drawables : List DrawableD) (children : List OctantT)

/-- Drawables of an octant. -/
def OctantT.drawables : OctantT → List DrawableD
  | OctantT.node ds _ => ds

/-- Non-null children of an octant. -/
def OctantT.children : OctantT → List OctantT
  | OctantT.node _ cs => cs

/-- `DRAWABLES_PER_BATCH_TASK` (line 32). -/
def DRAWABLES_PER_BATCH_TASK : Nat := 128

/-- A `ThreadOctantResult` (Renderer.h lines 51-68) together with the batch
collection tasks it has queued: each queued task carries its
octant+planeMask slice. -/
structure OctantResult where
  lights : List LightD
  octants : List (OctantT × Nat)
  drawableAcc : Nat
  taskOctantIdx : Nat
  batchTasks : List (List (OctantT × Nat))

/-- The freshly cleared `ThreadOctantResult`. -/
def emptyOctantResult : OctantResult := ⟨[], [], 0, 0, []⟩

/-- The drawable loop of `CollectOctantsAndLights` (lines 432-454): visible
lights that accept `OnPrepareRender` are collected until the first
non-light drawable; at that point the loop breaks and the octant is
recorded with the count of remaining drawables (`octant->drawables.end() -
it`). Returns the collected lights and that remainder count (0 when the
octant holds only lights). -/
def scanDrawables (viewMask planeMask : Nat) : List DrawableD → List LightD × Nat
  | [] => ([], 0)
  | d :: rest =>
    if d.isLight then
      let r := scanDrawables viewMask planeMask rest
      (if d.layerMask &&& viewMask ≠ 0 ∧ (planeMask = 0 ∨ d.boxVisible planeMask) ∧
          d.prepareOk then
        d.light :: r.1
       else r.1, r.2)
    else
      ([], (d :: rest).length)

/-- The task-granularity threshold of lines 456-472: once the accumulated
drawable count reaches `DRAWABLES_PER_BATCH_TASK` (in threaded mode), queue
a batch task covering the octants gathered since the last queued task and
reset the accumulator. -/
def thresholdFlush (threaded : Bool) (st : OctantResult) : OctantResult :=
  if threaded ∧ DRAWABLES_PER_BATCH_TASK ≤ st.drawableAcc then
    { st with
      batchTasks := st.batchTasks ++ [st.octants.drop st.taskOctantIdx]
      drawableAcc := 0
      taskOctantIdx := st.octants.length }
  else st

mutual

/-- `Renderer::CollectOctantsAndLights` (lines 423-482): mask refinement
and early-out, drawable scan, threshold flush, then recursion into
children (when `recursive`). -/
def collectOAL (octMask : OctantT → Nat → Nat) (viewMask : Nat) (threaded recursive : Bool)
    (octant : OctantT) (planeMask : Nat) (st : OctantResult) : OctantResult :=
  let pm := if planeMask ≠ 0 then octMask octant planeMask else planeMask
  if planeMask ≠ 0 ∧ pm = 0xff then st
  else
    let scan := scanDrawables viewMask pm octant.drawables
    let st1 :=
      { st with
        lights := st.lights ++ scan.1
        octants := if 0 < scan.2 then st.octants ++ [(octant, pm)] else st.octants
        drawableAcc := st.drawableAcc + scan.2 }
    let st2 := thresholdFlush threaded st1
    if recursive then collectChildren octMask viewMask threaded octant.children pm st2
    else st2
termination_by sizeOf octant
decreasing_by
  cases octant with
  | node ds cs => simp [OctantT.children]

/-- The child-recursion loop of lines 474-481. -/
def collectChildren (octMask : OctantT → Nat → Nat) (viewMask : Nat) (threaded : Bool) :
    List OctantT → Nat → OctantResult → OctantResult
  | [], _, st => st
  | c :: cs, pm, st =>
    collectChildren octMask viewMask threaded cs pm
      (collectOAL octMask viewMask threaded true c pm st)
termination_by l _ _ => sizeOf l
decreasing_by
  all_goals simp
  all_goals omega

end

/-- `Renderer::CollectOctantsWork` (lines 802-829): run the traversal for
one root-level octant (recursion disabled when the octant is the octree
root itself) and queue a final batch task for the leftover accumulator. -/
def collectOctantsWork (octMask : OctantT → Nat → Nat) (viewMask : Nat)
    (threaded isRoot : Bool) (octant : OctantT) : OctantResult :=
  let st := collectOAL octMask viewMask threaded (¬isRoot) octant 0x3f emptyOctantResult
  if 0 < st.drawableAcc then
    { st with batchTasks := st.batchTasks ++ [st.octants.drop st.taskOctantIdx] }
  else st

/-- A draw batch, restricted to what `RenderBatches` consumes for draw-call
counting: the `ShaderProgram::Bind()` outcome and instancing data. Batches
are produced non-instanced; `BatchQueue::Sort` (outside this translation
unit) may later merge equal-key batches into instanced runs. -/
structure BatchD where
  bindOk : Bool
  instanced : Bool
  instanceCount : Nat
  distance : Int
deriving DecidableEq, Repr

/-- The geometry scan of `CollectBatchesWork` (lines 998-1074) for one
(octant, planeMask) pair: re-test each geometry drawable against the mask
(skipped when the mask is 0), ask it to prepare, and push one batch per
sub-geometry — to the opaque queue when an opaque pass exists, else to the
alpha queue when an alpha pass exists, else skip it. -/
def collectBatchesFromPair (viewMask : Nat) (pair : OctantT × Nat) :
    List BatchD × List BatchD :=
  pair.1.drawables.foldr
    (fun d acc =>
      if ¬d.isLight ∧ d.layerMask &&& viewMask ≠ 0 ∧
          (pair.2 = 0 ∨ d.boxVisible pair.2) ∧ d.prepareOk then
        d.geoBatches.foldr
          (fun gb acc2 =>
            if gb.hasOpaquePass then ((⟨gb.bindOk, false, 1, d.distance⟩ : BatchD) :: acc2.1, acc2.2)
            else if gb.hasAlphaPass then (acc2.1, (⟨gb.bindOk, false, 1, d.distance⟩ : BatchD) :: acc2.2)
            else acc2)
          acc
      else acc)
    ([], [])

/-- `Renderer::CollectBatchesWork` over one task's octant list: opaque and
alpha batches accumulated across the pairs. -/
def collectBatchesWork (viewMask : Nat) (pairs : List (OctantT × Nat)) :
    List BatchD × List BatchD :=
  pairs.foldr
    (fun p acc =>
      let r := collectBatchesFromPair viewMask p
      (r.1 ++ acc.1, r.2 ++ acc.2))
    ([], [])

/-- Draw calls issued by `Renderer::RenderBatches` (lines 629-707) over a
batch queue: a batch whose program fails to bind is skipped; an instanced
batch issues one instanced draw and advances past its `instanceCount`
entries; any other batch issues one draw. -/
def drawCalls : List BatchD → Nat
  | [] => 0
  | b :: rest =>
    if ¬b.bindOk then drawCalls rest
    else if b.instanced then 1 + drawCalls (rest.drop (b.instanceCount - 1))
    else 1 + drawCalls rest
termination_by l => l.length
decreasing_by
  all_goals simp [List.length_drop]
  all_goals omega

/-- The starting points of traversal (PrepareView lines 222-231): the root
octant when it directly holds drawables, then its non-null children. -/
def rootLevelOctantsM (root : OctantT) : List OctantT :=
  (if root.drawables.isEmpty then [] else [root]) ++ root.children

/-- Per-frame outputs of the `PrepareView` dataflow that the claims
observe. -/
structure FrameOutputs where
  rootOctants : List OctantT
  collectedLights : List LightD
  batchTaskCount : Nat
  opaqueBatches : List BatchD
  alphaBatches : List BatchD
  dirLight : Option LightD
  retained : List LightD
  shadow : ShadowSetup

/-- The `PrepareView` frame dataflow, composed from the embedded stages:
octant collection per root-level octant (the root itself is traversed
non-recursively), merge of the per-task results, batch collection over the
queued batch tasks, light processing, then the shadow section. The spec's
task-graph scheduling (§5: the frame's task DAG always runs to completion)
is modelled by composing the stages in dependency order. -/
def prepareViewModel (octMask : OctantT → Nat → Nat) (viewMask : Nat)
    (threaded : Bool) (o : AllocOracle) (requestedShadows : Bool)
    (shadowMapsCount : Nat) (dirty : Bool) (root : OctantT) : FrameOutputs :=
  let rls := rootLevelOctantsM root
  let results :=
    (if root.drawables.isEmpty then []
     else [collectOctantsWork octMask viewMask threaded true root]) ++
    root.children.map (collectOctantsWork octMask viewMask threaded false)
  let collected := (results.map OctantResult.lights).flatten
  let pairTasks := (results.map OctantResult.batchTasks).flatten
  let batchOut := pairTasks.map (collectBatchesWork viewMask)
  let plc := processLightsCore collected
  let ds := effectiveDrawShadows shadowMapsCount requestedShadows
  { rootOctants := rls
    collectedLights := collected
    batchTaskCount := pairTasks.length
    opaqueBatches := (batchOut.map Prod.fst).flatten
    alphaBatches := (batchOut.map Prod.snd).flatten
    dirLight := plc.1
    retained := plc.2
    shadow := shadowSetup ds dirty o plc.1 plc.2 }

/-! # Theorems -/

/-- C10: For every index value, `ShadowMapTexture(index)` returns null when
the index is at least the number of configured shadow maps (including when
none are configured), and otherwise returns the texture of the shadow map
at that index; the accessor never reads out of bounds (the in-bounds read
carries its bound proof). -/
theorem shadowMapTexture_bounds (shadowMaps : List Nat) (index : Nat) :
    (shadowMaps.length ≤ index → shadowMapTexture shadowMaps index = none) ∧
    (∀ h : index < shadowMaps.length,
      shadowMapTexture shadowMaps index = some (shadowMaps.get ⟨index, h⟩)) := by
  constructor
  · intro h
    simp [shadowMapTexture, Nat.not_lt.mpr h]
  · intro h
    simp [shadowMapTexture, h]

/-- Witness for C10: the accessor on an empty configuration and on a
2-element configuration. -/
theorem shadowMapTexture_bounds_witness :
    shadowMapTexture [] 0 = none ∧ shadowMapTexture [7, 9] 1 = some 9 := by
  refine ⟨(shadowMapTexture_bounds [] 0).1 (by decide), ?_⟩
  have h := (shadowMapTexture_bounds [7, 9] 1).2 (by decide)
  simpa using h

/-- C7 counterexample: the frame-number stamp is not strictly increasing
across successive `PrepareView` calls — at the 16-bit wraparound the stamp
goes from 65535 to 1, a decrease. -/
theorem nextFrameNumber_wrap_decreases :
    nextFrameNumber 65535 = 1 ∧ ¬ 65535 < nextFrameNumber 65535 := by decide

/-- C7 (amended): the frame-number stamp is never zero and stays within
16 bits; it increments by exactly one whenever no wraparound occurs (hence
is strictly increasing between wraparounds), and at wraparound it skips
zero, going from 65535 to 1. -/
theorem nextFrameNumber_spec (n : Nat) (h : n < 65536) :
    nextFrameNumber n ≠ 0 ∧ nextFrameNumber n < 65536 ∧
    (n + 1 < 65536 → nextFrameNumber n = n + 1) ∧
    (n = 65535 → nextFrameNumber n = 1) := by
  by_cases hn : n = 65535
  · subst hn
    exact ⟨by decide, by decide, fun h2 => absurd h2 (by decide), fun _ => by decide⟩
  · have hlt : n + 1 < 65536 := by omega
    have hv : nextFrameNumber n = n + 1 := by
      unfold nextFrameNumber
      simp [Nat.mod_eq_of_lt hlt]
    exact ⟨by omega, by omega, fun _ => hv, fun he => absurd he hn⟩

/-- Witness for C7's amended theorem at `n = 100`. -/
theorem nextFrameNumber_spec_witness :
    nextFrameNumber 100 ≠ 0 ∧ nextFrameNumber 100 < 65536 ∧
    (100 + 1 < 65536 → nextFrameNumber 100 = 100 + 1) ∧
    (100 = 65535 → nextFrameNumber 100 = 1) :=
  nextFrameNumber_spec 100 (by decide)

/-- C4: when a light requests the same shadow-map size as the rectangle it
held last frame, `AllocateShadowMap` makes the reclaim attempt
`AllocateSpecific(oldRect)` as its first (and, on success, only) allocator
call, and a successful reclaim returns exactly the previous rectangle. -/
theorem allocateShadowMap_reclaim (o : AllocOracle) (request : IntVector2) (oldRect : IntRect)
    (hw : request.x = oldRect.width) (hh : request.y = oldRect.height) :
    (allocateShadowMap o request oldRect).2.head? = some (AllocCall.specific oldRect) ∧
    (o.allocSpecific oldRect = true →
      allocateShadowMap o request oldRect = (some oldRect, [AllocCall.specific oldRect])) := by
  by_cases hs : o.allocSpecific oldRect = true
  · simp [allocateShadowMap, hw, hh, hs]
  · simp [allocateShadowMap, hw, hh, hs]

/-- Witness for C4: a 2x2 request against a previously held 2x2 rectangle
under an allocator that accepts the reclaim. -/
theorem allocateShadowMap_reclaim_witness :
    allocateShadowMap ⟨fun _ => true, fun _ _ => none⟩ ⟨2, 2⟩ ⟨3, 4, 5, 6⟩ =
      (some ⟨3, 4, 5, 6⟩, [AllocCall.specific ⟨3, 4, 5, 6⟩]) :=
  (allocateShadowMap_reclaim _ _ _ (by decide) (by decide)).2 rfl

/-- The fresh-allocation calls of an allocator call trace. -/
def freshCalls (calls : List AllocCall) : List AllocCall :=
  calls.filter fun c =>
    match c with
    | AllocCall.fresh _ _ => true
    | _ => false

/-- C3 counterexample: the claim says a failed fresh allocation is retried
up to 3 times while halving (four fresh attempts in total, at sizes s, s/2,
s/4, s/8). Under an allocator that only has room at size 1x1, the code
gives up after three attempts (8, 4, 2) and clears the shadow map, while
the claimed behaviour (`claimAllocFresh`) would succeed on its third retry
at 1x1. -/
theorem allocateShadowMap_only_three_attempts :
    (allocateShadowMap ⟨fun _ => false, fun w _ => if w ≤ 1 then some (0, 0) else none⟩
        ⟨8, 8⟩ ⟨0, 0, 0, 0⟩) =
      (none, [AllocCall.fresh 8 8, AllocCall.fresh 4 4, AllocCall.fresh 2 2]) ∧
    (claimAllocFresh ⟨fun _ => false, fun w _ => if w ≤ 1 then some (0, 0) else none⟩
        ⟨8, 8⟩).1 = some ⟨0, 0, 1, 1⟩ := by decide

/-- C3 (amended): when `AllocateShadowMap` cannot re-claim the previous
rectangle (its size differs from the request, or the reclaim attempt
fails), it makes up to 3 fresh allocation attempts in total, halving the
requested width and height after each failure (sizes s, s/2, s/4); if all
of them fail, the light's shadow map is cleared (`SetShadowMap(nullptr)`,
modelled as a `none` result) and the function returns false, so the light
renders unshadowed for that frame. -/
theorem allocateShadowMap_failure_spec (o : AllocOracle) (request : IntVector2)
    (oldRect : IntRect)
    (hre : ¬(request.x = oldRect.width ∧ request.y = oldRect.height) ∨
      o.allocSpecific oldRect = false)
    (h1 : o.allocate request.x request.y = none)
    (h2 : o.allocate (request.x / 2) (request.y / 2) = none)
    (h3 : o.allocate (request.x / 2 / 2) (request.y / 2 / 2) = none) :
    (allocateShadowMap o request oldRect).1 = none ∧
    freshCalls (allocateShadowMap o request oldRect).2 =
      [AllocCall.fresh request.x request.y,
       AllocCall.fresh (request.x / 2) (request.y / 2),
       AllocCall.fresh (request.x / 2 / 2) (request.y / 2 / 2)] := by
  rcases hre with hsz | hsp
  · simp [allocateShadowMap, hsz, allocFreshLoop, h1, h2, h3, freshCalls]
  · by_cases hsz : request.x = oldRect.width ∧ request.y = oldRect.height
    · obtain ⟨hx, hy⟩ := hsz
      rw [hx, hy] at h1 h2 h3
      simp [allocateShadowMap, hx, hy, hsp, allocFreshLoop, h1, h2, h3, freshCalls]
    · simp [allocateShadowMap, hsz, allocFreshLoop, h1, h2, h3, freshCalls]

/-- Witness for C3's amended theorem: a full atlas (every allocation
fails); the code makes exactly the three halved attempts and clears the
shadow map. -/
theorem allocateShadowMap_failure_spec_witness :
    (allocateShadowMap ⟨fun _ => false, fun _ _ => none⟩ ⟨8, 8⟩ ⟨0, 0, 0, 0⟩).1 = none ∧
    freshCalls (allocateShadowMap ⟨fun _ => false, fun _ _ => none⟩ ⟨8, 8⟩ ⟨0, 0, 0, 0⟩).2 =
      [AllocCall.fresh 8 8, AllocCall.fresh 4 4, AllocCall.fresh 2 2] := by
  have h := allocateShadowMap_failure_spec ⟨fun _ => false, fun _ _ => none⟩ ⟨8, 8⟩
    ⟨0, 0, 0, 0⟩ (Or.inl (by decide)) rfl rfl rfl
  simpa using h

/-- C2: for a shadow view of a static non-directional light with a
non-zero viewport, `CollectShadowBatchesWork` resolves the render mode
exactly per the claim's linear transition rule, and in the `CACHED` case
the previous frame's shadow matrix is reused verbatim. -/
theorem staticShadowViewRenderMode {M : Type} (matEq : M → M → Bool)
    (lightType : LightType) (casters : List CasterInfo) (v : ShadowViewState M)
    (hlt : lightType ≠ LightType.directional)
    (hvp : v.viewport ≠ IntRect.ZERO) :
    (processShadowView matEq lightType true casters v).renderMode =
      claimStaticRenderMode (decide (v.lastViewport ≠ v.viewport))
        (!matEq v.lastShadowMatrix v.shadowMatrix)
        (casterAgg casters).staticMoved (casterAgg casters).dynMoved
        (decide (v.lastNumGeometries ≠ (casterAgg casters).total))
        (casterAgg casters).staticCount ∧
    ((processShadowView matEq lightType true casters v).renderMode =
        RenderMode.staticLightCached →
      (processShadowView matEq lightType true casters v).shadowMatrix = v.lastShadowMatrix) := by
  simp only [processShadowView, claimStaticRenderMode, hvp, hlt, if_neg, ite_false]
  split_ifs <;> simp_all

/-- Witness for C2: a static spot light whose viewport and shadow matrix
are unchanged and whose single static caster did not move resolves to
`CACHED` and reuses the previous shadow matrix. -/
theorem staticShadowViewRenderMode_witness :
    (processShadowView (fun a b : Nat => a == b) LightType.spot true
        [⟨true, true, false⟩]
        ⟨⟨0, 0, 4, 4⟩, ⟨0, 0, 4, 4⟩, 5, 5, 1, RenderMode.dynamicLight⟩).renderMode =
      RenderMode.staticLightCached ∧
    (processShadowView (fun a b : Nat => a == b) LightType.spot true
        [⟨true, true, false⟩]
        ⟨⟨0, 0, 4, 4⟩, ⟨0, 0, 4, 4⟩, 5, 5, 1, RenderMode.dynamicLight⟩).shadowMatrix = 5 := by
  have h := staticShadowViewRenderMode (fun a b : Nat => a == b) LightType.spot
    [⟨true, true, false⟩] ⟨⟨0, 0, 4, 4⟩, ⟨0, 0, 4, 4⟩, 5, 5, 1, RenderMode.dynamicLight⟩
    (by decide) (by decide)
  have h1 : (processShadowView (fun a b : Nat => a == b) LightType.spot true
      [⟨true, true, false⟩]
      ⟨⟨0, 0, 4, 4⟩, ⟨0, 0, 4, 4⟩, 5, 5, 1, RenderMode.dynamicLight⟩).renderMode =
      RenderMode.staticLightCached := by
    rw [h.1]
    decide
  exact ⟨h1, h.2 h1⟩

/-! ### Properties of the directional-light extraction fold -/

/-- The lights remaining after `ProcessLightsWork`'s erase loop are exactly
the non-directional lights, in collection order. -/
theorem extractDirLight_snd (acc : Option LightD) (ls : List LightD) :
    (extractDirLight acc ls).2 =
      ls.filter fun l => decide (l.lightType ≠ LightType.directional) := by
  induction ls generalizing acc with
  | nil => simp [extractDirLight]
  | cons l rest ih =>
    by_cases h : l.lightType = LightType.directional
    · simp [extractDirLight, h, ih]
    · simp [extractDirLight, h, ih]

/-- Starting from a non-empty candidate, the fold always ends with a
candidate. -/
theorem extractDirLight_fst_some (ls : List LightD) :
    ∀ a : LightD, ∃ d, (extractDirLight (some a) ls).1 = some d := by
  induction ls with
  | nil => exact fun a => ⟨a, rfl⟩
  | cons l rest ih =>
    intro a
    by_cases h : l.lightType = LightType.directional
    · by_cases hc : l.colorAvg > a.colorAvg
      · simpa [extractDirLight, h, hc] using ih l
      · simpa [extractDirLight, h, hc] using ih a
    · simpa [extractDirLight, h] using ih a

/-- The final candidate's average color never drops below the starting
candidate's. -/
theorem extractDirLight_fst_ge (ls : List LightD) :
    ∀ a d : LightD, (extractDirLight (some a) ls).1 = some d →
      a.colorAvg ≤ d.colorAvg := by
  induction ls with
  | nil =>
    intro a d h
    simp only [extractDirLight] at h
    cases h
    exact le_refl _
  | cons l rest ih =>
    intro a d h
    by_cases hl : l.lightType = LightType.directional
    · by_cases hc : l.colorAvg > a.colorAvg
      · simp only [extractDirLight, hl, if_pos, hc, if_true] at h
        have := ih l d (by simpa using h)
        omega
      · simp only [extractDirLight, hl, if_pos, hc, if_false] at h
        exact ih a d (by simpa [hc] using h)
    · simp only [extractDirLight, hl] at h
      exact ih a d (by simpa [hl] using h)

/-- The final candidate's average color dominates every directional light
of the scanned list. -/
theorem extractDirLight_fst_max (ls : List LightD) :
    ∀ (acc : Option LightD) (d : LightD), (extractDirLight acc ls).1 = some d →
      ∀ l ∈ ls, l.lightType = LightType.directional → l.colorAvg ≤ d.colorAvg := by
  induction ls with
  | nil =>
    intro acc d _ l hl
    exact absurd hl (List.not_mem_nil l)
  | cons x rest ih =>
    intro acc d h l hl hdir
    rcases List.mem_cons.mp hl with rfl | hmem
    · cases acc with
      | none =>
        simp only [extractDirLight, hdir, if_pos] at h
        exact extractDirLight_fst_ge rest l d (by simpa using h)
      | some a =>
        by_cases hc : l.colorAvg > a.colorAvg
        · simp only [extractDirLight, hdir, if_pos, hc, if_true] at h
          exact extractDirLight_fst_ge rest l d (by simpa using h)
        · simp only [extractDirLight, hdir, if_pos, hc, if_false] at h
          have := extractDirLight_fst_ge rest a d (by simpa [hc] using h)
          omega
    · by_cases hx : x.lightType = LightType.directional
      · cases acc with
        | none =>
          simp only [extractDirLight, hx, if_pos] at h
          exact ih _ d (by simpa using h) l hmem hdir
        | some a =>
          by_cases hc : x.colorAvg > a.colorAvg
          · simp only [extractDirLight, hx, if_pos, hc, if_true] at h
            exact ih _ d (by simpa using h) l hmem hdir
          · simp only [extractDirLight, hx, if_pos, hc, if_false] at h
            exact ih _ d (by simpa [hc] using h) l hmem hdir
      · simp only [extractDirLight, hx] at h
        exact ih _ d (by simpa [hx] using h) l hmem hdir

/-- The final candidate is the starting one or a directional light of the
scanned list. -/
theorem extractDirLight_fst_mem (ls : List LightD) :
    ∀ (acc : Option LightD) (d : LightD), (extractDirLight acc ls).1 = some d →
      acc = some d ∨ (d ∈ ls ∧ d.lightType = LightType.directional) := by
  induction ls with
  | nil =>
    intro acc d h
    left
    simpa [extractDirLight] using h
  | cons x rest ih =>
    intro acc d h
    by_cases hx : x.lightType = LightType.directional
    · cases acc with
      | none =>
        rcases ih _ d (by simpa [extractDirLight, hx] using h) with h1 | h2
        · cases h1
          exact Or.inr ⟨List.mem_cons_self x rest, hx⟩
        · exact Or.inr ⟨List.mem_cons_of_mem x h2.1, h2.2⟩
      | some a =>
        by_cases hc : x.colorAvg > a.colorAvg
        · rcases ih _ d (by simpa [extractDirLight, hx, hc] using h) with h1 | h2
          · cases h1
            exact Or.inr ⟨List.mem_cons_self x rest, hx⟩
          · exact Or.inr ⟨List.mem_cons_of_mem x h2.1, h2.2⟩
        · rcases ih _ d (by simpa [extractDirLight, hx, hc] using h) with h1 | h2
          · exact Or.inl h1
          · exact Or.inr ⟨List.mem_cons_of_mem x h2.1, h2.2⟩
    · rcases ih _ d (by simpa [extractDirLight, hx] using h) with h1 | h2
      · exact Or.inl h1
      · exact Or.inr ⟨List.mem_cons_of_mem x h2.1, h2.2⟩

/-- If the list holds a directional light, the fold produces a candidate. -/
theorem extractDirLight_fst_isSome (ls : List LightD) :
    ∀ acc : Option LightD, (∃ l ∈ ls, l.lightType = LightType.directional) →
      ∃ d, (extractDirLight acc ls).1 = some d := by
  induction ls with
  | nil =>
    intro acc h
    obtain ⟨l, hl, _⟩ := h
    exact absurd hl (List.not_mem_nil l)
  | cons x rest ih =>
    intro acc h
    by_cases hx : x.lightType = LightType.directional
    · cases acc with
      | none => simpa [extractDirLight, hx] using extractDirLight_fst_some rest x
      | some a =>
        by_cases hc : x.colorAvg > a.colorAvg
        · simpa [extractDirLight, hx, hc] using extractDirLight_fst_some rest x
        · simpa [extractDirLight, hx, hc] using extractDirLight_fst_some rest a
    · obtain ⟨l, hl, hdir⟩ := h
      rcases List.mem_cons.mp hl with rfl | hmem
      · exact absurd hdir hx
      · simpa [extractDirLight, hx] using ih acc ⟨l, hmem, hdir⟩

/-- C5: after `ProcessLightsWork`, the retained point/spot light list is
sorted by ascending camera distance and holds at most `MAX_LIGHTS` = 255
entries; nothing but the sorted tail is dropped (retained ++ dropped is a
permutation of the non-directional lights), every dropped light is at
least as far as every retained one, and when more lights were collected
than the cap the retained list is exactly full. -/
theorem retainedLights_sorted_capped (collected : List LightD) :
    List.Sorted lightLE (retainedLights collected) ∧
    (retainedLights collected).length ≤ MAX_LIGHTS ∧
    List.Perm
      (retainedLights collected ++
        (sortLights (extractDirLight none collected).2).drop MAX_LIGHTS)
      (extractDirLight none collected).2 ∧
    (∀ a ∈ retainedLights collected,
      ∀ b ∈ (sortLights (extractDirLight none collected).2).drop MAX_LIGHTS,
        a.distance ≤ b.distance) ∧
    (MAX_LIGHTS < (extractDirLight none collected).2.length →
      (retainedLights collected).length = MAX_LIGHTS) := by
  have hsorted : List.Sorted lightLE (sortLights (extractDirLight none collected).2) :=
    List.sorted_insertionSort lightLE _
  have hperm : List.Perm (sortLights (extractDirLight none collected).2)
      (extractDirLight none collected).2 :=
    List.perm_insertionSort lightLE _
  refine ⟨?_, ?_, ?_, ?_, ?_⟩
  · exact List.Pairwise.sublist (List.take_sublist _ _) hsorted
  · simp [retainedLights]
  · rw [retainedLights, List.take_append_drop]
    exact hperm
  · have hs := hsorted
    rw [← List.take_append_drop MAX_LIGHTS (sortLights (extractDirLight none collected).2)]
      at hs
    have hcross := (List.pairwise_append.mp hs).2.2
    exact fun a ha b hb => hcross a ha b hb
  · intro hgt
    have hlen : (sortLights (extractDirLight none collected).2).length =
        (extractDirLight none collected).2.length := hperm.length_eq
    simp [retainedLights, List.length_take]
    omega

/-- Witness for C5, on a concrete 3-light collection (distances 5, 3, 9
with a directional light interleaved): the retained list is the sorted
non-directional pair. -/
theorem retainedLights_sorted_capped_witness :
    List.Sorted lightLE
      (retainedLights
        [⟨LightType.spot, 5, 0, true, ⟨1, 1⟩, IntRect.ZERO, false⟩,
         ⟨LightType.directional, 3, 7, true, ⟨1, 1⟩, IntRect.ZERO, false⟩,
         ⟨LightType.point, 3, 0, true, ⟨1, 1⟩, IntRect.ZERO, false⟩]) ∧
    (retainedLights
        [⟨LightType.spot, 5, 0, true, ⟨1, 1⟩, IntRect.ZERO, false⟩,
         ⟨LightType.directional, 3, 7, true, ⟨1, 1⟩, IntRect.ZERO, false⟩,
         ⟨LightType.point, 3, 0, true, ⟨1, 1⟩, IntRect.ZERO, false⟩]).length ≤ MAX_LIGHTS :=
  ⟨(retainedLights_sorted_capped _).1, (retainedLights_sorted_capped _).2.1⟩

/-! ### Light-type preservation through the shadow setup -/

/-- `SetShadowMap` outcomes do not change a light's type. -/
theorem allocForLight_type (o : AllocOracle) (l : LightD) :
    (allocForLight o l).1.lightType = l.lightType := by
  rcases hres : allocateShadowMap o l.requestSize l.shadowRect with ⟨r, calls⟩
  cases r <;> simp [allocForLight, hres, setShadowMapNone, setShadowMapRect]

/-- The caching pre-step does not change a light's type. -/
theorem preStepLight_type (ds dirty : Bool) (o : AllocOracle) (l : LightD) :
    (preStepLight ds dirty o l).1.lightType = l.lightType := by
  unfold preStepLight
  split_ifs <;> simp [setShadowMapNone, allocForLight_type]

/-- Every light surviving the pre-step has the type of a collected one. -/
theorem preStep_types (ds dirty : Bool) (o : AllocOracle) (ls : List LightD) :
    ∀ l ∈ (preStep ds dirty o ls).1, ∃ l0 ∈ ls, l.lightType = l0.lightType := by
  induction ls with
  | nil =>
    intro l hl
    exact absurd hl (List.not_mem_nil l)
  | cons x rest ih =>
    intro l hl
    simp only [preStep, List.foldr_cons] at hl
    rcases List.mem_cons.mp hl with rfl | hmem
    · exact ⟨x, List.mem_cons_self x rest, preStepLight_type ds dirty o x⟩
    · obtain ⟨l0, hl0, hty⟩ := ih l hmem
      exact ⟨l0, List.mem_cons_of_mem x hl0, hty⟩

/-- A light handed to a shadowcaster task keeps its type. -/
theorem mainLoopLight_type (ds : Bool) (o : AllocOracle) (l l2 : LightD)
    (h : (mainLoopLight ds o l).2 = some l2) : l2.lightType = l.lightType := by
  by_cases h1 : ds = false ∨ l.shadowStrengthLt1 = false
  · simp [mainLoopLight, h1] at h
  · by_cases h2 : l.hasShadowMap = false
    · by_cases h3 : (allocForLight o l).2.1 = true
      · simp [mainLoopLight, h1, h2, h3] at h
        rw [← h]
        exact allocForLight_type o l
      · simp [mainLoopLight, h1, h2, h3] at h
    · simp [mainLoopLight, h1, h2] at h
      rw [← h]

/-- Every light with a queued shadowcaster task has the type of an input
light. -/
theorem mainLoop_types (ds : Bool) (o : AllocOracle) (ls : List LightD) :
    ∀ l ∈ (mainLoop ds o ls).taskLights, ∃ l0 ∈ ls, l.lightType = l0.lightType := by
  induction ls with
  | nil =>
    intro l hl
    exact absurd hl (List.not_mem_nil l)
  | cons x rest ih =>
    intro l hl
    simp only [mainLoop, List.foldr_cons] at hl
    rcases hres : (mainLoopLight ds o x).2 with _ | l2
    · rw [hres] at hl
      obtain ⟨l0, hl0, hty⟩ := ih l (by simpa [mainLoop] using hl)
      exact ⟨l0, List.mem_cons_of_mem x hl0, hty⟩
    · rw [hres] at hl
      rcases List.mem_cons.mp (by simpa [mainLoop] using hl) with rfl | hmem
      · exact ⟨x, List.mem_cons_self x rest, mainLoopLight_type ds o x l hres⟩
      · obtain ⟨l0, hl0, hty⟩ := ih l hmem
        exact ⟨l0, List.mem_cons_of_mem x hl0, hty⟩

/-- C6: `ProcessLightsWork` removes every directional light from the
retained list; when it selects a dominant directional light, that light
comes from the collection and its average color intensity is maximal among
all collected directional lights (and one is always selected when any
directional light was collected); and no directional light — selected or
discarded — is ever handed to a shadowcaster-collection task. -/
theorem processLights_dirLight (collected : List LightD) (ds dirty : Bool)
    (o : AllocOracle) :
    (∀ l ∈ (processLightsCore collected).2, l.lightType ≠ LightType.directional) ∧
    (∀ d, (processLightsCore collected).1 = some d →
      d ∈ collected ∧ d.lightType = LightType.directional ∧
      ∀ l ∈ collected, l.lightType = LightType.directional →
        l.colorAvg ≤ d.colorAvg) ∧
    ((∃ l ∈ collected, l.lightType = LightType.directional) →
      ∃ d, (processLightsCore collected).1 = some d) ∧
    (∀ l ∈ (shadowSetup ds dirty o (processLightsCore collected).1
        (processLightsCore collected).2).taskLights,
      l.lightType ≠ LightType.directional) := by
  have hkept : ∀ l ∈ (processLightsCore collected).2,
      l.lightType ≠ LightType.directional := by
    intro l hl
    have h1 : l ∈ sortLights (extractDirLight none collected).2 :=
      (List.take_sublist _ _).mem hl
    have h2 : l ∈ (extractDirLight none collected).2 :=
      (List.perm_insertionSort lightLE _).mem_iff.mp h1
    rw [extractDirLight_snd] at h2
    simpa using List.of_mem_filter h2
  refine ⟨hkept, ?_, ?_, ?_⟩
  · intro d hd
    rcases extractDirLight_fst_mem collected none d hd with h1 | h2
    · cases h1
    · exact ⟨h2.1, h2.2, extractDirLight_fst_max collected none d hd⟩
  · exact extractDirLight_fst_isSome collected none
  · intro l hl
    obtain ⟨l1, hl1, hty1⟩ := mainLoop_types ds o _ l (by simpa [shadowSetup] using hl)
    obtain ⟨l0, hl0, hty0⟩ := preStep_types ds dirty o _ l1 hl1
    have := hkept l0 hl0
    rw [hty1, hty0]
    exact this

/-- Witness for C6 on a concrete collection holding two directional lights
(averages 7 and 2) and a spot light: the brighter directional is selected. -/
theorem processLights_dirLight_witness :
    (processLightsCore
        [⟨LightType.directional, 3, 2, true, ⟨1, 1⟩, IntRect.ZERO, false⟩,
         ⟨LightType.spot, 5, 0, true, ⟨1, 1⟩, IntRect.ZERO, false⟩,
         ⟨LightType.directional, 4, 7, true, ⟨1, 1⟩, IntRect.ZERO, false⟩]).1 =
      some ⟨LightType.directional, 4, 7, true, ⟨1, 1⟩, IntRect.ZERO, false⟩ ∧
    ∀ l ∈ (processLightsCore
        [⟨LightType.directional, 3, 2, true, ⟨1, 1⟩, IntRect.ZERO, false⟩,
         ⟨LightType.spot, 5, 0, true, ⟨1, 1⟩, IntRect.ZERO, false⟩,
         ⟨LightType.directional, 4, 7, true, ⟨1, 1⟩, IntRect.ZERO, false⟩]).2,
      l.lightType ≠ LightType.directional := by
  refine ⟨by decide, ?_⟩
  exact (processLights_dirLight
    [⟨LightType.directional, 3, 2, true, ⟨1, 1⟩, IntRect.ZERO, false⟩,
     ⟨LightType.spot, 5, 0, true, ⟨1, 1⟩, IntRect.ZERO, false⟩,
     ⟨LightType.directional, 4, 7, true, ⟨1, 1⟩, IntRect.ZERO, false⟩]
    false false ⟨fun _ => false, fun _ _ => none⟩).1

/-! ### Absence of shadow work with shadows disabled -/

/-- The pre-step makes no allocator call when shadows are off. -/
theorem preStepLight_false_calls (dirty : Bool) (o : AllocOracle) (l : LightD) :
    (preStepLight false dirty o l).2 = [] := by
  cases dirty <;> simp [preStepLight]

/-- Unfolding of the pre-step fold over a cons cell. -/
theorem preStep_cons (ds dirty : Bool) (o : AllocOracle) (x : LightD) (rest : List LightD) :
    preStep ds dirty o (x :: rest) =
      ((preStepLight ds dirty o x).1 :: (preStep ds dirty o rest).1,
       (preStepLight ds dirty o x).2 ++ (preStep ds dirty o rest).2) := rfl

/-- The pre-step fold makes no allocator call when shadows are off. -/
theorem preStep_false_calls (dirty : Bool) (o : AllocOracle) (ls : List LightD) :
    (preStep false dirty o ls).2 = [] := by
  induction ls with
  | nil => rfl
  | cons x rest ih => simp [preStep_cons, preStepLight_false_calls, ih]

/-- The directional-light handling short-circuits before any allocation
when shadows are off, and registers no cascade views. -/
theorem dirLightSetup_false (dirty : Bool) (o : AllocOracle) (dl : Option LightD) :
    (dirLightSetup false dirty o dl).2 = ([], 0) := by
  cases dl <;> simp [dirLightSetup]

/-- With shadows off, a light is always skipped by the task loop. -/
theorem mainLoopLight_false (o : AllocOracle) (x : LightD) :
    mainLoopLight false o x = ([], none) := by
  simp [mainLoopLight]

/-- The main shadowcaster-task loop does nothing when shadows are off. -/
theorem mainLoop_false (o : AllocOracle) (ls : List LightD) :
    mainLoop false o ls = ⟨[], [], 0⟩ := by
  induction ls with
  | nil => rfl
  | cons x rest ih =>
    show (let s := mainLoopLight false o x
      match s.2 with
      | some l2 =>
        { allocCalls := s.1 ++ (mainLoop false o rest).allocCalls
          taskLights := l2 :: (mainLoop false o rest).taskLights
          viewCount := numShadowViews l2.lightType + (mainLoop false o rest).viewCount }
      | none =>
        { mainLoop false o rest with
          allocCalls := s.1 ++ (mainLoop false o rest).allocCalls } : ShadowSetup) =
      ⟨[], [], 0⟩
    rw [mainLoopLight_false, ih]
    rfl

/-- C9: when `SetupShadowMaps` has never been called (the shadow-map list
is empty), `PrepareView` forces the internal shadow flag to false no matter
the `drawShadows` argument, and consequently the shadow section of
`ProcessLightsWork` makes no shadow-map allocator call, creates no shadow
views, and queues no shadowcaster task — for any lights collected that
frame. -/
theorem noShadowWorkWithoutSetup (requested dirty : Bool) (o : AllocOracle)
    (dl : Option LightD) (ls : List LightD) :
    effectiveDrawShadows 0 requested = false ∧
    (shadowSetup (effectiveDrawShadows 0 requested) dirty o dl ls).allocCalls = [] ∧
    (shadowSetup (effectiveDrawShadows 0 requested) dirty o dl ls).taskLights = [] ∧
    (shadowSetup (effectiveDrawShadows 0 requested) dirty o dl ls).viewCount = 0 := by
  have hds : effectiveDrawShadows 0 requested = false := rfl
  rw [hds]
  refine ⟨rfl, ?_, ?_, ?_⟩ <;>
    simp [shadowSetup, preStep_false_calls, dirLightSetup_false, mainLoop_false]

/-- Witness for C9: `drawShadows = true` requested with no shadow maps
configured, one candidate light and a directional candidate. -/
theorem noShadowWorkWithoutSetup_witness :
    effectiveDrawShadows 0 true = false ∧
    (shadowSetup (effectiveDrawShadows 0 true) false ⟨fun _ => true, fun _ _ => some (0, 0)⟩
      (some ⟨LightType.directional, 0, 7, true, ⟨2, 2⟩, IntRect.ZERO, false⟩)
      [⟨LightType.spot, 5, 0, true, ⟨2, 2⟩, ⟨0, 0, 2, 2⟩, true⟩]).allocCalls = [] ∧
    (shadowSetup (effectiveDrawShadows 0 true) false ⟨fun _ => true, fun _ _ => some (0, 0)⟩
      (some ⟨LightType.directional, 0, 7, true, ⟨2, 2⟩, IntRect.ZERO, false⟩)
      [⟨LightType.spot, 5, 0, true, ⟨2, 2⟩, ⟨0, 0, 2, 2⟩, true⟩]).taskLights = [] ∧
    (shadowSetup (effectiveDrawShadows 0 true) false ⟨fun _ => true, fun _ _ => some (0, 0)⟩
      (some ⟨LightType.directional, 0, 7, true, ⟨2, 2⟩, IntRect.ZERO, false⟩)
      [⟨LightType.spot, 5, 0, true, ⟨2, 2⟩, ⟨0, 0, 2, 2⟩, true⟩]).viewCount = 0 :=
  noShadowWorkWithoutSetup true false ⟨fun _ => true, fun _ _ => some (0, 0)⟩
    (some ⟨LightType.directional, 0, 7, true, ⟨2, 2⟩, IntRect.ZERO, false⟩)
    [⟨LightType.spot, 5, 0, true, ⟨2, 2⟩, ⟨0, 0, 2, 2⟩, true⟩]

/-- C8: for an empty scene — the octree root holds no drawables and has no
child octants — the frame dataflow completes with no traversal starting
points, no collected lights, no batch-collection tasks, empty opaque and
alpha queues, no dominant directional light, no retained lights, no
shadow-map allocation, no shadow views, no shadowcaster tasks, and both
`RenderOpaque` and `RenderAlpha` issue zero draw calls — for every culling
oracle, view mask, allocator, shadow configuration and threading mode. -/
theorem emptySceneFrame (octMask : OctantT → Nat → Nat) (viewMask : Nat)
    (threaded : Bool) (o : AllocOracle) (requested : Bool) (smc : Nat) (dirty : Bool) :
    (prepareViewModel octMask viewMask threaded o requested smc dirty
        (OctantT.node [] [])).rootOctants = [] ∧
    (prepareViewModel octMask viewMask threaded o requested smc dirty
        (OctantT.node [] [])).collectedLights = [] ∧
    (prepareViewModel octMask viewMask threaded o requested smc dirty
        (OctantT.node [] [])).batchTaskCount = 0 ∧
    (prepareViewModel octMask viewMask threaded o requested smc dirty
        (OctantT.node [] [])).opaqueBatches = [] ∧
    (prepareViewModel octMask viewMask threaded o requested smc dirty
        (OctantT.node [] [])).alphaBatches = [] ∧
    (prepareViewModel octMask viewMask threaded o requested smc dirty
        (OctantT.node [] [])).dirLight = none ∧
    (prepareViewModel octMask viewMask threaded o requested smc dirty
        (OctantT.node [] [])).retained = [] ∧
    (prepareViewModel octMask viewMask threaded o requested smc dirty
        (OctantT.node [] [])).shadow.allocCalls = [] ∧
    (prepareViewModel octMask viewMask threaded o requested smc dirty
        (OctantT.node [] [])).shadow.taskLights = [] ∧
    (prepareViewModel octMask viewMask threaded o requested smc dirty
        (OctantT.node [] [])).shadow.viewCount = 0 ∧
    drawCalls (prepareViewModel octMask viewMask threaded o requested smc dirty
        (OctantT.node [] [])).opaqueBatches = 0 ∧
    drawCalls (prepareViewModel octMask viewMask threaded o requested smc dirty
        (OctantT.node [] [])).alphaBatches = 0 := by
  refine ⟨rfl, rfl, rfl, rfl, rfl, rfl, rfl, rfl, rfl, rfl, ?_, ?_⟩
  all_goals
    show drawCalls [] = 0
    simp [drawCalls]

/-- Witness for C8 at a concrete oracle instantiation. -/
theorem emptySceneFrame_witness :
    (prepareViewModel (fun _ pm => pm) 1 true ⟨fun _ => false, fun _ _ => none⟩ true 2 false
        (OctantT.node [] [])).opaqueBatches = [] ∧
    drawCalls (prepareViewModel (fun _ pm => pm) 1 true ⟨fun _ => false, fun _ _ => none⟩
        true 2 false (OctantT.node [] [])).alphaBatches = 0 := by
  have h := emptySceneFrame (fun _ pm => pm) 1 true ⟨fun _ => false, fun _ _ => none⟩
    true 2 false
  exact ⟨h.2.2.2.1, h.2.2.2.2.2.2.2.2.2.2.2⟩

set_option maxRecDepth 100000 in
/-- C1: the per-cluster capacity is NOT enforced. The guard at line 1425
reads `numClusterLights` only at the slice's first cell
(`idx = z * NUM_CLUSTER_X * NUM_CLUSTER_Y`) before the cell loop; the
write at line 1433 has no per-cell check. With 17 retained lights that all
intersect only the slice's relative cell 1, that cell's count reaches 17 —
one past `MAX_LIGHTS_CLUSTER` = 16 — and the 17th index is written at byte
offset `1 * 16 + 16 = 32`, which is the first slot of cell 2, i.e. past
cell 1's fixed-capacity slots (for the grid's last cell this offset lies
past the end of the `clusterData` allocation). The light is recorded, not
silently dropped. -/
theorem clusterCapacityOverflow :
    cellCount (cullLightsSlice overflowLights) 1 = 17 ∧
    MAX_LIGHTS_CLUSTER < cellCount (cullLightsSlice overflowLights) 1 ∧
    (1 * MAX_LIGHTS_CLUSTER + MAX_LIGHTS_CLUSTER, 17) ∈
      (cullLightsSlice overflowLights).writes := by
  decide

end Turso3D
